import Mathlib

/-!
Verification development for the pool-membership and work-dispatch client
(`local_client/andy_host_client.py`, with `local_client/app_fixed.py` for the
fixed web client's disconnect path).

The client's shared mutable state is the pair `(host_id, registered)` guarded
by `connection_lock`.  Network interactions are modelled by explicit response
values handed to each operation: every `requests.post`/`requests.get` outcome
the code branches on becomes a constructor of a small response type, and the
operation becomes a pure function from the pre-state and the responses to the
result and post-state.  External library primitives (Python's `json.loads`,
`str.strip`) appear as oracle parameters (`parse`, `blank`); the repository's
own control flow is translated line by line.
-/

/-- The registration state of `AndyHostClient`: the optional coordinator-assigned
identity `host_id` and the `registered` flag (`andy_host_client.py` lines 50-51). -/
structure ClientState where
  host_id : Option String
  registered : Bool
deriving DecidableEq

/-- Outcome of the HTTP POST in `join_pool`: a 200 response whose JSON body
yields `result.get('host_id')`, a non-200 status, or a raised network error. -/
inductive JoinResponse where
  | success (hid : Option String)
  | httpError (code : Nat)
  | netError
deriving DecidableEq

/-- Result of `join_pool`: the returned boolean, the post-state, and whether an
HTTP request to the coordinator was issued at all. -/
structure JoinOut where
  ret : Bool
  st : ClientState
  requested : Bool
deriving DecidableEq

/-- `AndyHostClient.join_pool` (lines 116-146): with `models` the value returned
by `get_client_allowed_models()`, an empty list returns `False` before any
request is built; otherwise the join request is posted and a 200 response
stores the received `host_id` and sets `registered = True`, while a non-200
response or an exception leaves the state untouched and returns `False`. -/
def join_pool (st : ClientState) (models : List String) (resp : JoinResponse) : JoinOut :=
  if models.isEmpty then ⟨false, st, false⟩
  else
    match resp with
    | .success hid => ⟨true, ⟨hid, true⟩, true⟩
    | .httpError _ => ⟨false, st, true⟩
    | .netError => ⟨false, st, true⟩

/-- Outcome of one `ping_pool` POST: an HTTP status code, or a raised
network exception. -/
inductive PingResult where
  | status (code : Nat)
  | exn
deriving DecidableEq

/-- The 404 confirmation loop of `send_ping` (lines 171-180): re-ping up to five
times, returning `true` at the first 200 response; non-200 statuses and request
exceptions are logged and the loop continues. -/
def retryLoop : List PingResult → Bool
  | [] => false
  | r :: rs =>
    match r with
    | .status c => if c = 200 then true else retryLoop rs
    | .exn => retryLoop rs

/-- The finalization step of `send_ping`'s failure paths (lines 183-185 and
192-194): under the lock, clear `registered` only if `host_id` still equals the
identity the ping was sent with. -/
def pingFinalize (st : ClientState) (sent : Option String) : ClientState :=
  if st.host_id = sent then { st with registered := false } else st

/-- `AndyHostClient.send_ping` (lines 148-195) with interference made explicit:
`entry` is the state snapshotted under the lock at entry, `later` the shared
state at the moment the failure paths re-take the lock (equal to `entry` in a
run without interference).  A 200 response returns `true`; a 404 enters the
confirmation loop and, if it never sees a 200, runs the guarded finalization;
any other status is logged and leaves the state alone; a raised exception also
runs the guarded finalization. -/
def send_ping_fin (entry : ClientState) (first : PingResult) (retries : List PingResult)
    (later : ClientState) : Bool × ClientState :=
  if entry.registered = false then (false, later)
  else
    match first with
    | .exn => (false, pingFinalize later entry.host_id)
    | .status c =>
      if c = 200 then (true, later)
      else if c = 404 then
        if retryLoop retries then (true, later)
        else (false, pingFinalize later entry.host_id)
      else (false, later)

/-- `send_ping` in a run without interference from other threads. -/
def send_ping (st : ClientState) (first : PingResult) (retries : List PingResult) :
    Bool × ClientState :=
  send_ping_fin st first retries st

/-- Outcome of the `leave_pool` POST: an HTTP status or a raised exception. -/
inductive LeaveResponse where
  | status (code : Nat)
  | exn
deriving DecidableEq

/-- `AndyHostClient.leave_pool` (lines 197-220): if not registered, return
`True` with no request; otherwise post the leave notification and clear
`registered` only on a 200 response; a non-200 status or an exception returns
`False` with the state unchanged.  `host_id` is never written. -/
def leave_pool (st : ClientState) (resp : LeaveResponse) : Bool × ClientState :=
  if st.registered = false then (true, st)
  else
    match resp with
    | .status c => if c = 200 then (true, { st with registered := false }) else (false, st)
    | .exn => (false, st)

/-- The connection state of `app_fixed.py`'s `LocalClient`: `is_connected` and
`host_id` (lines 59-60). -/
structure FixedState where
  is_connected : Bool
  host_id : Option String
deriving DecidableEq

/-- `LocalClient.disconnect_from_pool` (`app_fixed.py` lines 203-228): when not
connected or without a `host_id`, reset immediately without a request;
otherwise post the leave notification, whose outcome is only logged, and then
always reset `is_connected = False`, `host_id = None`, returning `True`.  The
third component records whether a request was issued. -/
def disconnect_from_pool (st : FixedState) (resp : LeaveResponse) :
    Bool × FixedState × Bool :=
  if st.is_connected = false ∨ st.host_id = none then (true, ⟨false, none⟩, false)
  else
    match resp with
    | _ => (true, ⟨false, none⟩, true)

/-- A sequence of heartbeat ticks: each element carries the response to the
initial ping and the responses to the (up to five) 404 confirmation re-pings. -/
def runPings : ClientState → List (PingResult × List PingResult) → ClientState
  | st, [] => st
  | st, a :: rest => runPings (send_ping st a.1 a.2).2 rest

/-- Whether one heartbeat tick leaves the registration state unchanged: true
for a 200, for any non-404 HTTP status, and for a 404 whose confirmation loop
recovers; false for a raised exception and for a 404 with a failed
confirmation loop. -/
def attemptKeepsState (a : PingResult × List PingResult) : Bool :=
  match a.1 with
  | .exn => false
  | .status c => if c = 404 then retryLoop a.2 else true

/-- A payload posted to `/api/andy/submit_work_result`: either a successful
`result` body or an `error` body, over an abstract result type `α`. -/
inductive SubmitPayload (α : Type) where
  | result (a : α)
  | error (msg : String)
deriving DecidableEq

/-- Outcome of a `requests.post` to the result-submission endpoint: an HTTP
status, or a raised exception carrying its message. -/
inductive SubmitOutcome where
  | ok (code : Nat)
  | exn (msg : String)
deriving DecidableEq

/-- The submission step shared by `_process_chat_work`, `_process_embedding_work`
and `_process_model_discovery_work`: the `requests.post` of `p` is one attempt;
if it raises, the exception propagates to `process_work`'s handler (lines
358-372), which posts one more error payload built from the exception text,
that second attempt being wrapped in its own try/except.  The returned list is
the sequence of POST attempts to `submit_work_result`. -/
def submitThenCatch {α : Type} (p : SubmitPayload α) (out : SubmitOutcome) :
    List (SubmitPayload α) :=
  match out with
  | .ok _ => [p]
  | .exn m => [p, .error ("Work processing failed: " ++ m)]

/-- Outcome of the chat request to the local backend (`/api/chat`): a response
with a status, the result of `response.json()` on the whole body (`none` when
the body is not a single JSON document), and the body stripped and split on
newlines; or a raised exception. -/
inductive ChatBackend (J : Type) where
  | resp (status : Nat) (bodyParse : Option J) (lines : List String)
  | exn (msg : String)
deriving DecidableEq

/-- The streaming fallback loop of `_process_chat_work` (lines 400-409), on the
already-reversed line list: skip lines that strip to empty (`blank`), return
the first line `json.loads` accepts (`parse`), and yield `none` when the list
is exhausted (the code then raises `ValueError`). -/
def lastValidLineAux {J : Type} (blank : String → Bool) (parse : String → Option J) :
    List String → Option J
  | [] => none
  | l :: ls =>
    if blank l then lastValidLineAux blank parse ls
    else
      match parse l with
      | some j => some j
      | none => lastValidLineAux blank parse ls

/-- The streaming fallback over the lines in their original order: the code
iterates `reversed(lines)`. -/
def lastValidLine {J : Type} (blank : String → Bool) (parse : String → Option J)
    (lines : List String) : Option J :=
  lastValidLineAux blank parse lines.reverse

/-- Modelled from the spec: "the dispatcher extracts the last syntactically
valid fragment as the result", blank lines skipped — the last line that is
nonblank and parses, fed through the parser.  Stated independently of the
code's reversed-iteration loop, for comparison with `lastValidLine`. -/
def specLastValidLine {J : Type} (blank : String → Bool) (parse : String → Option J)
    (lines : List String) : Option J :=
  ((lines.filter fun l => !blank l && (parse l).isSome).getLast?).bind parse

/-- `_process_chat_work` together with `process_work`'s catch-all handler
(lines 345-433), projected to the sequence of POST attempts to
`submit_work_result`.  A raised backend request reaches the handler, which
submits one error.  A 200 response submits the whole-body parse when it
succeeds, otherwise the last valid streamed line; if neither parses, the
raised `ValueError` reaches the handler, which submits one error.  A non-200
backend status submits one error.  Each in-function submission that raises is
followed by the handler's own error submission (`submitThenCatch`). -/
def process_chat {J : Type} (blank : String → Bool) (parse : String → Option J)
    (backend : ChatBackend J) (out : SubmitOutcome) : List (SubmitPayload J) :=
  match backend with
  | .exn m => [.error ("Work processing failed: " ++ m)]
  | .resp c bodyParse lines =>
    if c = 200 then
      match bodyParse with
      | some j => submitThenCatch (.result j) out
      | none =>
        match lastValidLine blank parse lines with
        | some j => submitThenCatch (.result j) out
        | none => [.error "Work processing failed: Could not parse JSON response from Ollama"]
    else
      submitThenCatch (.error ("Ollama request failed: " ++ toString c)) out

/-- Outcome of the embedding request to the local backend (`/api/embeddings`):
a response with a status and the parsed `embedding` field (`result.get
('embedding', [])`, so an absent field is the empty list), or a raised
exception. -/
inductive EmbBackend (E : Type) where
  | resp (status : Nat) (embedding : List E)
  | exn (msg : String)
deriving DecidableEq

/-- `_process_embedding_work` together with `process_work`'s catch-all handler
(lines 345-372 and 435-482), projected to the sequence of POST attempts to
`submit_work_result`: a 200 response with an empty or absent vector submits an
error, a 200 response with a non-empty vector submits the vector as the
result, a non-200 status submits an error, and a raised backend request
reaches the handler, which submits one error. -/
def process_embedding {E : Type} (backend : EmbBackend E) (out : SubmitOutcome) :
    List (SubmitPayload (List E)) :=
  match backend with
  | .exn m => [.error ("Work processing failed: " ++ m)]
  | .resp c emb =>
    if c = 200 then
      if emb.isEmpty then submitThenCatch (.error "No embedding returned from Ollama") out
      else submitThenCatch (.result emb) out
    else
      submitThenCatch (.error ("Ollama embedding request failed: " ++ toString c)) out

/-- Outcome of the model-discovery GET to the local backend (`/api/tags`): a
response with a status and the parsed `models` field (`ollama_models.get
('models', [])`, so an absent field is the empty list), or a raised request —
which, unlike in the chat and embedding handlers, is caught inside
`_process_model_discovery_work`'s own try/except. -/
inductive DiscoveryBackend (M : Type) where
  | resp (status : Nat) (models : List M)
  | exn (msg : String)
deriving DecidableEq

/-- `_process_model_discovery_work` together with `process_work`'s catch-all
handler (lines 345-372 and 484-519), projected to the sequence of POST
attempts to `submit_work_result`: a 200 response submits the model list as the
result, a non-200 status submits an error, and a raised backend GET is caught
locally (lines 503-507) and submits an error.  On all three paths the submit
POST of lines 510-514 sits outside that try/except, so if it raises, the
exception reaches `process_work`'s handler, which posts a second error
payload (`submitThenCatch`). -/
def process_model_discovery {M : Type} (backend : DiscoveryBackend M)
    (out : SubmitOutcome) : List (SubmitPayload (List M)) :=
  match backend with
  | .exn m => submitThenCatch (.error ("Model discovery failed: " ++ m)) out
  | .resp c models =>
    if c = 200 then submitThenCatch (.result models) out
    else submitThenCatch (.error ("Failed to query Ollama models: " ++ toString c)) out

/-- The model cache of `AndyHostClient` (lines 55-57): the memoized list and
the time it was stored. -/
structure CacheState where
  cached : Option (List String)
  cacheTime : Nat
deriving DecidableEq

/-- `_models_cache_ttl = 300` (line 57). -/
def modelsCacheTtl : Nat := 300

/-- The freshness test of `get_client_allowed_models` (lines 90-91): a cache
hit requires a stored list and `current_time - cache_time < ttl`. -/
def cacheFresh (st : CacheState) (now : Nat) : Bool :=
  st.cached.isSome && decide (now - st.cacheTime < modelsCacheTtl)

/-- The allow-list filter of `get_client_allowed_models` (lines 97-102): with
no configured allow-list every detected model passes; otherwise only detected
models contained in the allow-list pass. -/
def filterAllowed (allowed : Option (List String)) (all : List String) : List String :=
  match allowed with
  | none => all
  | some a => all.filter (fun m => a.contains m)

/-- `AndyHostClient.get_client_allowed_models` (lines 85-114) as one sequential
call: on a hit return the cached list with no fetch; on a miss fetch
(`detect_models`, whose result is the parameter `fetched`), filter, store, and
return.  The last component counts backend fetches issued by the call. -/
def get_client_allowed_models (st : CacheState) (allowed : Option (List String))
    (now : Nat) (fetched : List String) : List String × CacheState × Nat :=
  if cacheFresh st now then
    (st.cached.getD [], st, 0)
  else
    let res := filterAllowed allowed fetched
    (res, ⟨some res, now⟩, 1)

/-- Where a caller of `get_client_allowed_models` stands: before the freshness
check, between the check and the fetch-and-store, or returned. -/
inductive ThreadPhase where
  | start
  | fetching
  | finished
deriving DecidableEq

/-- One caller of `get_client_allowed_models`: its phase and, once finished,
its return value. -/
structure ThreadState where
  phase : ThreadPhase
  result : List String
deriving DecidableEq

/-- Two concurrent callers of `get_client_allowed_models` over the shared,
unsynchronized cache, with a count of backend fetches issued so far. -/
structure PoolSys where
  cache : CacheState
  t1 : ThreadState
  t2 : ThreadState
  fetchCount : Nat
deriving DecidableEq

/-- One step of one caller, at its own `time.time()` value `now`: from `start`,
run the freshness check of lines 90-92 — a hit returns the cached list, a miss
moves to the fetch; from `fetching`, run lines 95-114 — fetch, filter, store,
return.  The function has no lock, so steps of the two callers interleave
freely. -/
def threadStep (allowed : Option (List String)) (fetched : List String) (now : Nat)
    (cache : CacheState) (t : ThreadState) (fc : Nat) : CacheState × ThreadState × Nat :=
  match t.phase with
  | .start =>
    if cacheFresh cache now then (cache, ⟨.finished, cache.cached.getD []⟩, fc)
    else (cache, ⟨.fetching, t.result⟩, fc)
  | .fetching =>
    let res := filterAllowed allowed fetched
    (⟨some res, now⟩, ⟨.finished, res⟩, fc + 1)
  | .finished => (cache, t, fc)

/-- Advance caller 1 (`who = true`) or caller 2 (`who = false`) by one step;
`n1`, `n2` are the two callers' clock readings. -/
def sysStep (allowed : Option (List String)) (fetched : List String) (n1 n2 : Nat)
    (who : Bool) (s : PoolSys) : PoolSys :=
  if who then
    let r := threadStep allowed fetched n1 s.cache s.t1 s.fetchCount
    ⟨r.1, r.2.1, s.t2, r.2.2⟩
  else
    let r := threadStep allowed fetched n2 s.cache s.t2 s.fetchCount
    ⟨r.1, s.t1, r.2.1, r.2.2⟩

/-- Run a schedule: the list says which caller steps next. -/
def runSched (allowed : Option (List String)) (fetched : List String) (n1 n2 : Nat) :
    List Bool → PoolSys → PoolSys
  | [], s => s
  | w :: ws, s => runSched allowed fetched n1 n2 ws (sysStep allowed fetched n1 n2 w s)

/-- Both callers about to run, no fetch issued yet. -/
def initPoolSys (c : CacheState) : PoolSys :=
  ⟨c, ⟨.start, []⟩, ⟨.start, []⟩, 0⟩

/-- A concrete blankness oracle for witnesses: only the empty string strips to
empty. -/
def testBlank (s : String) : Bool := s = ""

/-- A concrete parse oracle for witnesses: the line "J1" parses to 1, the line
"J2" parses to 2, everything else is invalid. -/
def testParse (s : String) : Option Nat :=
  if s = "J1" then some 1 else if s = "J2" then some 2 else none

/-! Helper lemmas about single heartbeat ticks and tick sequences. -/

/-- A tick classified as state-keeping leaves a registered state exactly as it
was. -/
theorem send_ping_keeps_state (st : ClientState) (a : PingResult × List PingResult)
    (h : st.registered = true) (hk : attemptKeepsState a = true) :
    (send_ping st a.1 a.2).2 = st := by
  obtain ⟨first, retries⟩ := a
  cases first with
  | exn => simp [attemptKeepsState] at hk
  | status c =>
    by_cases h200 : c = 200
    · simp [send_ping, send_ping_fin, h, h200]
    · by_cases h404 : c = 404
      · simp [attemptKeepsState, h404] at hk
        simp [send_ping, send_ping_fin, h, h200, h404, hk]
      · simp [send_ping, send_ping_fin, h, h200, h404]

/-- A tick classified as state-dropping clears exactly the `registered` flag of
a registered state. -/
theorem send_ping_drops_state (st : ClientState) (a : PingResult × List PingResult)
    (h : st.registered = true) (hk : attemptKeepsState a = false) :
    (send_ping st a.1 a.2).2 = { st with registered := false } := by
  obtain ⟨first, retries⟩ := a
  cases first with
  | exn => simp [send_ping, send_ping_fin, h, pingFinalize]
  | status c =>
    by_cases h404 : c = 404
    · subst h404
      simp [attemptKeepsState] at hk
      simp [send_ping, send_ping_fin, h, hk, pingFinalize]
    · simp [attemptKeepsState, h404] at hk

/-- From an unregistered state every tick returns immediately and the state
never moves. -/
theorem runPings_unregistered (st : ClientState) (l : List (PingResult × List PingResult))
    (h : st.registered = false) : runPings st l = st := by
  induction l with
  | nil => rfl
  | cons a rest ih =>
    have h1 : (send_ping st a.1 a.2).2 = st := by
      simp [send_ping, send_ping_fin, h]
    rw [runPings, h1]
    exact ih

/-- A run of state-keeping ticks from a registered state ends where it
started. -/
theorem runPings_all_keep (st : ClientState) (l : List (PingResult × List PingResult))
    (h : st.registered = true) (hk : ∀ a ∈ l, attemptKeepsState a = true) :
    runPings st l = st := by
  induction l with
  | nil => rfl
  | cons a rest ih =>
    have h1 : (send_ping st a.1 a.2).2 = st :=
      send_ping_keeps_state st a h (hk a (by simp))
    rw [runPings, h1]
    exact ih (fun b hb => hk b (by simp [hb]))

/-- A run containing a state-dropping tick ends unregistered. -/
theorem runPings_some_drop (st : ClientState) (l : List (PingResult × List PingResult))
    (h : st.registered = true) (hk : ∃ a ∈ l, attemptKeepsState a = false) :
    (runPings st l).registered = false := by
  induction l with
  | nil => simp at hk
  | cons a rest ih =>
    by_cases hA : attemptKeepsState a = true
    · have h1 : (send_ping st a.1 a.2).2 = st :=
        send_ping_keeps_state st a h hA
      rw [runPings, h1]
      apply ih
      rcases hk with ⟨b, hb, hbf⟩
      rcases List.mem_cons.mp hb with hba | hbr
      · exact absurd hA (by rw [hba] at hbf; simp [hbf])
      · exact ⟨b, hbr, hbf⟩
    · have hA' : attemptKeepsState a = false := by
        cases hA2 : attemptKeepsState a
        · rfl
        · exact absurd hA2 hA
      have h1 : (send_ping st a.1 a.2).2 = { st with registered := false } :=
        send_ping_drops_state st a h hA'
      rw [runPings, h1]
      rw [runPings_unregistered { st with registered := false } rest rfl]

/-! Claim theorems. -/

/-- Claim C5: a `join_pool` call made when the model cache returns an empty
list returns `false`, performs no request to the coordinator, and leaves
`host_id` and the registration state unmodified. -/
theorem C5_join_gating (st : ClientState) (resp : JoinResponse) :
    join_pool st [] resp = ⟨false, st, false⟩ := rfl

/-- Claim C2, counterexample: from the registered state with `host_id = "h1"`,
a heartbeat whose request raises a network error does not leave the state
unchanged — it clears the `registered` flag, contradicting the claim that a
network error or timeout leaves the membership state unchanged. -/
theorem C2_counterexample :
    (send_ping ⟨some "h1", true⟩ .exn []).2 = ⟨some "h1", false⟩ ∧
    (⟨some "h1", false⟩ : ClientState) ≠ ⟨some "h1", true⟩ := by decide

/-- Claim C2, amended: while registered, a heartbeat answered with a non-200,
non-404 HTTP status leaves the state and `host_id` unchanged; but a heartbeat
whose request raises a network error or timeout clears the `registered` flag
(the `host_id` field itself is unchanged). -/
theorem C2_amended_transient_vs_network (st : ClientState) (c : Nat)
    (retries : List PingResult) (h : st.registered = true)
    (h200 : c ≠ 200) (h404 : c ≠ 404) :
    (send_ping st (.status c) retries).2 = st ∧
    (send_ping st .exn retries).2 = { st with registered := false } ∧
    (send_ping st .exn retries).2.host_id = st.host_id := by
  refine ⟨?_, ?_, ?_⟩ <;>
    simp [send_ping, send_ping_fin, h, h200, h404, pingFinalize]

/-- Witness for `C2_amended_transient_vs_network` at `host_id = "h1"` with a
500 response and with a raised request. -/
theorem C2_amended_witness :
    ((⟨some "h1", true⟩ : ClientState).registered = true ∧
      (500 : Nat) ≠ 200 ∧ (500 : Nat) ≠ 404) ∧
    ((send_ping ⟨some "h1", true⟩ (.status 500) []).2 = ⟨some "h1", true⟩ ∧
      (send_ping ⟨some "h1", true⟩ .exn []).2 = ⟨some "h1", false⟩ ∧
      (send_ping ⟨some "h1", true⟩ .exn []).2.host_id = some "h1") :=
  ⟨⟨rfl, by decide, by decide⟩,
    C2_amended_transient_vs_network ⟨some "h1", true⟩ 500 [] rfl (by decide) (by decide)⟩

/-- Claim C3, counterexample: registered with `host_id = "h1"`, a heartbeat
answered 404 followed by five failing confirmation re-pings ends with
`registered = false` but with `host_id` still `"h1"`, not cleared to `None` as
the claim states. -/
theorem C3_counterexample :
    (send_ping ⟨some "h1", true⟩ (.status 404) [.exn, .exn, .exn, .exn, .exn]).2
      = ⟨some "h1", false⟩ ∧ (some "h1" : Option String) ≠ none := by decide

/-- Claim C3, amended: from the registered state, a heartbeat answered 404
whose five confirmation re-pings all fail ends with the `registered` flag
cleared, but `host_id` is not cleared — it keeps its previous value (it is
only overwritten by the next successful join). -/
theorem C3_amended_eviction_keeps_host_id (st : ClientState) (retries : List PingResult)
    (h : st.registered = true) (_hlen : retries.length = 5)
    (hfail : retryLoop retries = false) :
    (send_ping st (.status 404) retries).2 = { st with registered := false } ∧
    (send_ping st (.status 404) retries).2.host_id = st.host_id := by
  constructor <;> simp [send_ping, send_ping_fin, h, hfail, pingFinalize]

/-- Witness for `C3_amended_eviction_keeps_host_id` at `host_id = "h1"` with
five raising confirmation re-pings. -/
theorem C3_amended_witness :
    ((⟨some "h1", true⟩ : ClientState).registered = true ∧
      ([PingResult.exn, .exn, .exn, .exn, .exn].length = 5) ∧
      retryLoop [.exn, .exn, .exn, .exn, .exn] = false) ∧
    ((send_ping ⟨some "h1", true⟩ (.status 404) [.exn, .exn, .exn, .exn, .exn]).2
        = ⟨some "h1", false⟩ ∧
      (send_ping ⟨some "h1", true⟩ (.status 404) [.exn, .exn, .exn, .exn, .exn]).2.host_id
        = some "h1") :=
  ⟨⟨rfl, by decide, by decide⟩,
    C3_amended_eviction_keeps_host_id ⟨some "h1", true⟩
      [.exn, .exn, .exn, .exn, .exn] rfl (by decide) (by decide)⟩

/-- Claim C4, counterexample: a `leave_pool` call on `AndyHostClient` whose
best-effort notification raises returns with the state completely unchanged —
still registered and with `host_id = "h1"` — contradicting the claim that
every `leave()` call ends with `host_id` cleared and the state Unregistered. -/
theorem C4_counterexample :
    leave_pool ⟨some "h1", true⟩ .exn = (false, ⟨some "h1", true⟩) := by decide

/-- Claim C4, amended: `LocalClient.disconnect_from_pool` (app_fixed.py)
unconditionally ends with `is_connected = False` and `host_id = None` whatever
the notification outcome; `AndyHostClient.leave_pool` instead clears only the
`registered` flag and only when the notification returns 200 — on a non-200
status or a raised request the state is unchanged (still registered) — and it
never clears `host_id`. -/
theorem C4_amended_leave_behaviour (stF : FixedState) (st : ClientState)
    (resp : LeaveResponse) (c : Nat) (hc : c ≠ 200) :
    (disconnect_from_pool stF resp).2.1 = ⟨false, none⟩ ∧
    (st.registered = true → (leave_pool st (.status 200)).2 = { st with registered := false }) ∧
    (st.registered = true → (leave_pool st (.status c)).2 = st) ∧
    (st.registered = true → (leave_pool st .exn).2 = st) ∧
    (leave_pool st resp).2.host_id = st.host_id := by
  refine ⟨?_, ?_, ?_, ?_, ?_⟩
  · unfold disconnect_from_pool
    split
    · rfl
    · cases resp <;> rfl
  · intro h
    simp [leave_pool, h]
  · intro h
    simp [leave_pool, h, hc]
  · intro h
    simp [leave_pool, h]
  · by_cases h : st.registered = false
    · simp [leave_pool, h]
    · cases resp with
      | exn => simp [leave_pool, h]
      | status c2 =>
        by_cases h2 : c2 = 200 <;> simp [leave_pool, h, h2]

/-- Witness for `C4_amended_leave_behaviour` at concrete states with a 503
notification status. -/
theorem C4_amended_witness :
    ((503 : Nat) ≠ 200) ∧
    ((disconnect_from_pool ⟨true, some "h1"⟩ .exn).2.1 = ⟨false, none⟩ ∧
      ((⟨some "h1", true⟩ : ClientState).registered = true →
        (leave_pool ⟨some "h1", true⟩ (.status 200)).2 = ⟨some "h1", false⟩) ∧
      ((⟨some "h1", true⟩ : ClientState).registered = true →
        (leave_pool ⟨some "h1", true⟩ (.status 503)).2 = ⟨some "h1", true⟩) ∧
      ((⟨some "h1", true⟩ : ClientState).registered = true →
        (leave_pool ⟨some "h1", true⟩ .exn).2 = ⟨some "h1", true⟩) ∧
      (leave_pool ⟨some "h1", true⟩ .exn).2.host_id = some "h1") :=
  ⟨by decide, C4_amended_leave_behaviour ⟨true, some "h1"⟩ ⟨some "h1", true⟩ .exn 503 (by decide)⟩

/-- Claim C10: the failure paths of `send_ping` re-check under the lock that
`host_id` still equals the identity the heartbeat was sent with and only then
clear the `registered` flag, so a heartbeat begun under an old identity leaves
a session that has since rejoined with a different `host_id` completely
untouched. -/
theorem C10_stale_session_guard (entry later : ClientState) (first : PingResult)
    (retries : List PingResult) (h : later.host_id ≠ entry.host_id) :
    (send_ping_fin entry first retries later).2 = later ∧
    pingFinalize later entry.host_id = later := by
  have hf : pingFinalize later entry.host_id = later := by
    simp [pingFinalize, h]
  refine ⟨?_, hf⟩
  cases first with
  | exn =>
    by_cases hr : entry.registered = false <;> simp [send_ping_fin, hr, hf]
  | status c =>
    by_cases hr : entry.registered = false
    · simp [send_ping_fin, hr]
    · by_cases h200 : c = 200
      · simp [send_ping_fin, hr, h200]
      · by_cases h404 : c = 404
        · cases hrl : retryLoop retries <;>
            simp [send_ping_fin, hr, h200, h404, hrl, hf]
        · simp [send_ping_fin, hr, h200, h404]

/-- Witness for `C10_stale_session_guard`: a heartbeat sent under `"h1"` whose
request raises finds the session rejoined as `"h2"` and leaves it registered. -/
theorem C10_stale_session_guard_witness :
    ((⟨some "h2", true⟩ : ClientState).host_id ≠
      (⟨some "h1", true⟩ : ClientState).host_id) ∧
    ((send_ping_fin ⟨some "h1", true⟩ .exn [] ⟨some "h2", true⟩).2 = ⟨some "h2", true⟩ ∧
      pingFinalize ⟨some "h2", true⟩ (some "h1") = ⟨some "h2", true⟩) :=
  ⟨by decide, C10_stale_session_guard ⟨some "h1", true⟩ ⟨some "h2", true⟩ .exn [] (by decide)⟩

/-- Claim C8: an embedding dispatch whose backend answers 200 with an empty or
absent vector submits a failure payload, no submitted payload ever carries an
empty vector as a success, and a 200 answer with a non-empty vector submits
the vector as a success. -/
theorem C8_embedding_emptiness (E : Type) (emb : List E) (out : SubmitOutcome) :
    (process_embedding (EmbBackend.resp 200 ([] : List E)) out).head?
        = some (.error "No embedding returned from Ollama") ∧
    (∀ p ∈ process_embedding (EmbBackend.resp 200 emb) out,
        ∀ e : List E, p = SubmitPayload.result e → e ≠ []) ∧
    (emb ≠ [] → (process_embedding (EmbBackend.resp 200 emb) out).head?
        = some (.result emb)) := by
  refine ⟨?_, ?_, ?_⟩
  · cases out <;> rfl
  · intro p hp e hpe
    cases hemb : emb.isEmpty
    · have hne : emb ≠ [] := by
        cases emb
        · simp at hemb
        · simp
      cases out with
      | ok s =>
        simp [process_embedding, hemb, submitThenCatch] at hp
        rw [hp] at hpe
        cases hpe
        exact hne
      | exn m =>
        simp [process_embedding, hemb, submitThenCatch] at hp
        rcases hp with hp | hp <;> rw [hp] at hpe
        · cases hpe
          exact hne
        · cases hpe
    · cases out with
      | ok s =>
        simp [process_embedding, hemb, submitThenCatch] at hp
        rw [hp] at hpe
        cases hpe
      | exn m =>
        simp [process_embedding, hemb, submitThenCatch] at hp
        rcases hp with hp | hp <;> rw [hp] at hpe <;> cases hpe
  · intro hne
    have hemb : emb.isEmpty = false := by
      cases emb
      · exact absurd rfl hne
      · rfl
    cases out <;> simp [process_embedding, hemb, submitThenCatch]

/-- Witness for `C8_embedding_emptiness` over `Nat` vectors with the non-empty
vector `[1]`. -/
theorem C8_embedding_emptiness_witness :
    (([1] : List Nat) ≠ []) ∧
    (process_embedding (EmbBackend.resp 200 [1]) (SubmitOutcome.ok 200)).head?
      = some (.result [1]) :=
  ⟨by decide, (C8_embedding_emptiness Nat [1] (.ok 200)).2.2 (by decide)⟩

/-- Claim C1, counterexample: joining from scratch with model "m1" and a 200
response carrying `host_id = "h1"` puts the client immediately into the
registered state (there is no intermediate verifying phase), and three
subsequent heartbeat attempts all failing with HTTP 500 leave it registered —
the claim instead requires the run whose attempts all fail to end
Unregistered. -/
theorem C1_counterexample :
    (join_pool ⟨none, false⟩ ["m1"] (.success (some "h1"))).st = ⟨some "h1", true⟩ ∧
    runPings ⟨some "h1", true⟩ [(.status 500, []), (.status 500, []), (.status 500, [])]
      = ⟨some "h1", true⟩ := by decide

/-- Claim C1, amended: a successful join (a 200 response with a `host_id`)
moves the client directly into the registered state.  A subsequent run of
heartbeat attempts ends still registered with the same `host_id` whenever
every attempt either succeeds, fails with a non-404 HTTP status, or is a 404
whose confirmation loop recovers; the run ends unregistered exactly when it
contains an attempt that raises a network exception or is a 404 whose five
confirmation re-pings all fail.  In particular a run of attempts all failing
with non-404 HTTP statuses ends registered, not unregistered. -/
theorem C1_amended_join_direct_registered (st0 : ClientState) (models : List String)
    (hid : Option String) (attempts : List (PingResult × List PingResult))
    (hm : models ≠ []) :
    (join_pool st0 models (.success hid)).st = ⟨hid, true⟩ ∧
    ((∀ a ∈ attempts, attemptKeepsState a = true) →
      runPings ⟨hid, true⟩ attempts = ⟨hid, true⟩) ∧
    ((∃ a ∈ attempts, attemptKeepsState a = false) →
      (runPings ⟨hid, true⟩ attempts).registered = false) := by
  have hne : models.isEmpty = false := by
    cases models
    · exact absurd rfl hm
    · rfl
  exact ⟨by simp [join_pool, hne],
    fun hk => runPings_all_keep ⟨hid, true⟩ attempts rfl hk,
    fun hk => runPings_some_drop ⟨hid, true⟩ attempts rfl hk⟩

/-- Witness for `C1_amended_join_direct_registered` with one model, one
successful heartbeat attempt. -/
theorem C1_amended_witness :
    (["m1"] ≠ ([] : List String)) ∧
    ((join_pool ⟨none, false⟩ ["m1"] (.success (some "h1"))).st = ⟨some "h1", true⟩ ∧
      ((∀ a ∈ [((PingResult.status 200 : PingResult), ([] : List PingResult))],
          attemptKeepsState a = true) →
        runPings ⟨some "h1", true⟩ [(.status 200, [])] = ⟨some "h1", true⟩) ∧
      ((∃ a ∈ [((PingResult.status 200 : PingResult), ([] : List PingResult))],
          attemptKeepsState a = false) →
        (runPings ⟨some "h1", true⟩ [(.status 200, [])]).registered = false)) :=
  ⟨by decide, C1_amended_join_direct_registered ⟨none, false⟩ ["m1"] (some "h1")
    [(.status 200, [])] (by decide)⟩

/-- Claim C6, counterexample: a chat dispatch whose backend answers 200 with a
directly parseable body makes a first POST to the submission endpoint; that
POST raises, the exception reaches the catch-all handler of `process_work`,
and a second error POST is issued — two submission attempts for one work
item, where the claim requires exactly one. -/
theorem C6_counterexample :
    process_chat testBlank testParse (.resp 200 (some 7) ["J1"]) (.exn "boom")
      = [.result 7, .error "Work processing failed: boom"] ∧
    (process_chat testBlank testParse (.resp 200 (some 7) ["J1"]) (.exn "boom")).length
      = 2 := by decide

/-- Claim C6, amended: on every dispatch path of every task type — chat,
embedding and model discovery — exactly one POST to the result-submission
endpoint occurs when the in-handler submission request does not raise; when
that submission request raises, the catch-all handler of `process_work` issues
a second, error-carrying POST, so the number of submission attempts per work
item is between one and two.  A submission answered with a non-200 status is
only logged and not retried. -/
theorem C6_amended_submission_count (J E M : Type) (blank : String → Bool)
    (parse : String → Option J) (cb : ChatBackend J) (eb : EmbBackend E)
    (db : DiscoveryBackend M) (s : Nat) (m : String) :
    (process_chat blank parse cb (.ok s)).length = 1 ∧
    (process_embedding eb (.ok s)).length = 1 ∧
    (process_model_discovery db (.ok s)).length = 1 ∧
    (1 ≤ (process_chat blank parse cb (.exn m)).length ∧
      (process_chat blank parse cb (.exn m)).length ≤ 2) ∧
    (1 ≤ (process_embedding eb (.exn m)).length ∧
      (process_embedding eb (.exn m)).length ≤ 2) ∧
    (1 ≤ (process_model_discovery db (.exn m)).length ∧
      (process_model_discovery db (.exn m)).length ≤ 2) := by
  refine ⟨?_, ?_, ?_, ?_, ?_, ?_⟩
  · cases cb with
    | exn m2 => simp [process_chat]
    | resp c bp lines =>
      by_cases hc : c = 200
      · cases bp with
        | some j => simp [process_chat, hc, submitThenCatch]
        | none =>
          cases hlv : lastValidLine blank parse lines <;>
            simp [process_chat, hc, hlv, submitThenCatch]
      · simp [process_chat, hc, submitThenCatch]
  · cases eb with
    | exn m2 => simp [process_embedding]
    | resp c emb =>
      by_cases hc : c = 200
      · cases hemb : emb.isEmpty <;>
          simp [process_embedding, hc, hemb, submitThenCatch]
      · simp [process_embedding, hc, submitThenCatch]
  · cases db with
    | exn m2 => simp [process_model_discovery, submitThenCatch]
    | resp c models =>
      by_cases hc : c = 200 <;>
        simp [process_model_discovery, hc, submitThenCatch]
  · cases cb with
    | exn m2 => simp [process_chat]
    | resp c bp lines =>
      by_cases hc : c = 200
      · cases bp with
        | some j => simp [process_chat, hc, submitThenCatch]
        | none =>
          cases hlv : lastValidLine blank parse lines <;>
            simp [process_chat, hc, hlv, submitThenCatch]
      · simp [process_chat, hc, submitThenCatch]
  · cases eb with
    | exn m2 => simp [process_embedding]
    | resp c emb =>
      by_cases hc : c = 200
      · cases hemb : emb.isEmpty <;>
          simp [process_embedding, hc, hemb, submitThenCatch]
      · simp [process_embedding, hc, submitThenCatch]
  · cases db with
    | exn m2 => simp [process_model_discovery, submitThenCatch]
    | resp c models =>
      by_cases hc : c = 200 <;>
        simp [process_model_discovery, hc, submitThenCatch]

/-- The streaming fallback loop on a reversed list computes the parse of the
head of the reversed filtered list. -/
theorem lastValidLineAux_eq_filter_head (J : Type) (blank : String → Bool)
    (parse : String → Option J) (L : List String) :
    lastValidLineAux blank parse L
      = ((L.filter fun l => !blank l && (parse l).isSome).head?).bind parse := by
  induction L with
  | nil => rfl
  | cons l ls ih =>
    by_cases hb : blank l
    · simp [lastValidLineAux, hb, List.filter_cons, ih]
    · cases hp : parse l with
      | some j => simp [lastValidLineAux, hb, hp, List.filter_cons]
      | none => simp [lastValidLineAux, hb, hp, List.filter_cons, ih]

/-- The code's reversed-iteration loop agrees with the specification's "last
nonblank line that parses". -/
theorem lastValidLine_eq_spec (J : Type) (blank : String → Bool)
    (parse : String → Option J) (lines : List String) :
    lastValidLine blank parse lines = specLastValidLine blank parse lines := by
  unfold lastValidLine specLastValidLine
  rw [lastValidLineAux_eq_filter_head J blank parse lines.reverse,
    List.filter_reverse, List.head?_reverse]

/-- Claim C7: a chat dispatch whose 200 backend body is not a single JSON
document resolves to the parse of the last nonblank, syntactically valid line
of the body and submits it as the result; when no line parses, the dispatch
submits a failure payload, never a success. -/
theorem C7_streamed_chat (J : Type) (blank : String → Bool) (parse : String → Option J)
    (lines : List String) (s : Nat) (j : J) :
    (specLastValidLine blank parse lines = some j →
      process_chat blank parse (.resp 200 none lines) (.ok s) = [.result j]) ∧
    (specLastValidLine blank parse lines = none →
      process_chat blank parse (.resp 200 none lines) (.ok s)
        = [.error "Work processing failed: Could not parse JSON response from Ollama"]) := by
  constructor
  · intro h
    have hlv : lastValidLine blank parse lines = some j := by
      rw [lastValidLine_eq_spec]
      exact h
    simp [process_chat, hlv, submitThenCatch]
  · intro h
    have hlv : lastValidLine blank parse lines = none := by
      rw [lastValidLine_eq_spec]
      exact h
    simp [process_chat, hlv]

/-- Witness for `C7_streamed_chat`: a two-fragment streamed body whose second
line parses to 2 submits 2 as the single result, mirroring the spec scenario
of a partial fragment followed by the final message. -/
theorem C7_streamed_chat_witness :
    specLastValidLine testBlank testParse ["J1", "J2"] = some 2 ∧
    process_chat testBlank testParse (.resp 200 none ["J1", "J2"]) (.ok 200)
      = [.result 2] :=
  ⟨by decide, (C7_streamed_chat Nat testBlank testParse ["J1", "J2"] 200 2).1 (by decide)⟩

/-- Claim C9, counterexample: two concurrent `get_client_allowed_models`
callers on an empty cache, interleaved check-check-fetch-fetch, each pass the
unsynchronized freshness test and each issue a backend fetch — two fetches
where the claim requires exactly one. -/
theorem C9_counterexample :
    (runSched none ["m1"] 1000 1000 [true, false, true, false]
      (initPoolSys ⟨none, 0⟩)).fetchCount = 2 := by decide

/-- Claim C9, amended: the model cache deduplicates only serialized calls —
when one caller completes its miss-fetch-store and a second caller runs its
freshness check afterwards within the TTL, exactly one backend fetch is issued
and both callers return the same refreshed list; but nothing prevents two
callers whose freshness checks both precede either store from each issuing a
fetch (there is no single-flight guard). -/
theorem C9_amended_sequential_only (allowed : Option (List String))
    (fetched : List String) (c0 : CacheState) (n1 n2 : Nat)
    (h1 : cacheFresh c0 n1 = false) (h2 : n2 - n1 < modelsCacheTtl) :
    (runSched allowed fetched n1 n2 [true, true, false] (initPoolSys c0)).fetchCount = 1 ∧
    (runSched allowed fetched n1 n2 [true, true, false] (initPoolSys c0)).t1.result
      = filterAllowed allowed fetched ∧
    (runSched allowed fetched n1 n2 [true, true, false] (initPoolSys c0)).t2.result
      = filterAllowed allowed fetched := by
  have hf2 : cacheFresh ⟨some (filterAllowed allowed fetched), n1⟩ n2 = true := by
    simp [cacheFresh, h2]
  refine ⟨?_, ?_, ?_⟩ <;>
    simp [runSched, sysStep, threadStep, initPoolSys, h1, hf2]

/-- Witness for `C9_amended_sequential_only` on an empty cache with one
discovered model and call times 50 and 100. -/
theorem C9_amended_witness :
    (cacheFresh ⟨none, 0⟩ 50 = false ∧ 100 - 50 < modelsCacheTtl) ∧
    ((runSched none ["m1"] 50 100 [true, true, false] (initPoolSys ⟨none, 0⟩)).fetchCount = 1 ∧
      (runSched none ["m1"] 50 100 [true, true, false] (initPoolSys ⟨none, 0⟩)).t1.result
        = filterAllowed none ["m1"] ∧
      (runSched none ["m1"] 50 100 [true, true, false] (initPoolSys ⟨none, 0⟩)).t2.result
        = filterAllowed none ["m1"]) :=
  ⟨⟨by decide, by decide⟩,
    C9_amended_sequential_only none ["m1"] ⟨none, 0⟩ 50 100 (by decide) (by decide)⟩
